import Mathlib

/-!
Shallow embedding of the LibreChat-fork tool adapters
(`api/app/clients/tools/structured/WordPressTool.js`,
`api/app/clients/tools/structured/PortdoxTool.js`, and the `FluxAPI`
class bundled into `api/app/clients/tools/index.js`).

Each tool's `_call` is embedded as a pure function from the action
request, the construction-time configuration, and an environment that
supplies the responses of the remote HTTP endpoints, to the returned
string together with the list of network requests issued (the trace)
and the final instance state.  A JS exception that is still in flight
is an `Except.error`; the `try/catch` at the `_call` boundary is the
final `match` that converts it into an error-envelope string.
JS truthiness tests (`if (x)`, `x || d`) are modelled explicitly.
-/

namespace LibreChatTools

/-- JS template-literal rendering of a possibly-undefined string
(`undefined` interpolates as the text "undefined"). -/
def jsOptStr : Option String → String
  | none => "undefined"
  | some s => s

/-- JS truthiness of a possibly-undefined string: `undefined` and `""`
are falsy. -/
def strTruthy : Option String → Bool
  | none => false
  | some s => !(s == "")

/-- JS truthiness of a possibly-undefined number: `undefined` and `0`
are falsy. -/
def intTruthy : Option Int → Bool
  | none => false
  | some n => !(n == 0)

/-- `data.message || 'Unknown error'`: the remote error message when it
is truthy, else the fallback. -/
def orUnknown : Option String → String
  | none => "Unknown error"
  | some m => if m == "" then "Unknown error" else m

/-- `JSON.stringify` escaping for the characters that need it in the
strings these tools build. -/
def jsEscapeChar (c : Char) : String :=
  if c == '"' then "\\\""
  else if c == '\\' then "\\\\"
  else if c == '\n' then "\\n"
  else String.singleton c

/-- Body of a JSON string literal. -/
def jsEscape (s : String) : String :=
  String.join (s.data.map jsEscapeChar)

/-- A JSON string literal, as `JSON.stringify` prints it. -/
def jsonStr (s : String) : String :=
  "\"" ++ jsEscape s ++ "\""

/-- A JSON array of numbers, as `JSON.stringify` prints it. -/
def renderIntArr (xs : List Int) : String :=
  "[" ++ String.intercalate "," (xs.map toString) ++ "]"

/-- `JSON.stringify({ error: msg })`, the error envelope produced at
the `_call` boundary of the WordPress tool. -/
def renderErrEnv (msg : String) : String :=
  "\x7b\"error\":" ++ jsonStr msg ++ "\x7d"

/-- A zod validation issue: the offending path and the issue message.
Modelled from the spec: zod itself is library code outside this
repository; an issue is rendered with its `path` and `message` fields. -/
structure ZIssue where
  path : List String
  message : String
  deriving DecidableEq, Repr

/-- `JSON.stringify` of a single zod issue. -/
def renderIssue (i : ZIssue) : String :=
  "\x7b\"path\":[" ++ String.intercalate "," (i.path.map jsonStr) ++
    "],\"message\":" ++ jsonStr i.message ++ "\x7d"

/-- Comma-separated rendering of an issue list. -/
def renderIssueList : List ZIssue → String
  | [] => ""
  | [i] => renderIssue i
  | i :: j :: tl => renderIssue i ++ "," ++ renderIssueList (j :: tl)

/-- `JSON.stringify(validationResult.error.issues)`: the JSON array of
all issues, first issue first. -/
def renderIssues (is : List ZIssue) : String :=
  "[" ++ renderIssueList is ++ "]"

/-! ## WordPressTool: data model and schema validation -/

/-- The raw action request handed to `WordPressTool._call`, with every
schema field optional exactly as in the zod object (a missing key is
`none`). -/
structure WPArgs where
  action : Option String := none
  postId : Option Int := none
  title : Option String := none
  content : Option String := none
  status : Option String := none
  type : Option String := none
  tags : Option (List Int) := none
  categories : Option (List Int) := none
  date : Option String := none
  searchType : Option String := none
  searchValue : Option String := none
  tagId : Option Int := none
  categoryId : Option Int := none
  metaKey : Option String := none
  metaValue : Option String := none
  name : Option String := none
  description : Option String := none
  page : Option Int := none
  perPage : Option Int := none
  deriving Repr

/-- The 20 action names of the WordPress schema enum. -/
def wpActionEnum : List String :=
  ["createPost", "editPost", "listCategories", "listTags", "searchPosts",
   "searchByMeta", "updatePostMeta", "updateCategory", "updateTag",
   "getPostMeta", "deletePostMeta", "listPaginatedPosts",
   "listPaginatedCategories", "listPaginatedTags", "getPostContentById",
   "getFeaturedImage", "addCategory", "deleteCategory", "addTag", "deleteTag"]

/-- Allowed `status` values. -/
def wpStatusEnum : List String := ["draft", "publish", "future"]

/-- Allowed `type` values. -/
def wpTypeEnum : List String := ["post", "page"]

/-- Allowed `searchType` values. -/
def wpSearchTypeEnum : List String := ["contains", "starts_with", "ends_with"]

/-- zod check for a required enum field. -/
def checkRequiredEnum (field : String) (vals : List String)
    (v : Option String) : List ZIssue :=
  match v with
  | none => [⟨[field], "Required"⟩]
  | some s => if s ∈ vals then [] else [⟨[field], "Invalid enum value"⟩]

/-- zod check for an optional enum field. -/
def checkOptEnum (field : String) (vals : List String)
    (v : Option String) : List ZIssue :=
  match v with
  | none => []
  | some s => if s ∈ vals then [] else [⟨[field], "Invalid enum value"⟩]

/-- zod check for an optional `z.string().min(1)` field. -/
def checkMin1 (field : String) (v : Option String) : List ZIssue :=
  match v with
  | some "" => [⟨[field], "String must contain at least 1 character(s)"⟩]
  | _ => []

/-- All issues of `this.schema.safeParse(args)` for the WordPress tool,
in schema key order (only `action`, `title`, `content`, `status`,
`type` and `searchType` can fail on a JSON-typed request). -/
def wpIssues (args : WPArgs) : List ZIssue :=
  checkRequiredEnum "action" wpActionEnum args.action ++
  checkMin1 "title" args.title ++
  checkMin1 "content" args.content ++
  checkOptEnum "status" wpStatusEnum args.status ++
  checkOptEnum "type" wpTypeEnum args.type ++
  checkOptEnum "searchType" wpSearchTypeEnum args.searchType

/-- The validated data (`validationResult.data`): same fields, with the
zod defaults `page = 1`, `perPage = 20` applied.  The schema has no
`tagName`/`categoryName` key, so those keys of a raw request are
stripped by `safeParse` and are `undefined` in the validated data. -/
structure WPData where
  action : String
  postId : Option Int
  title : Option String
  content : Option String
  status : Option String
  type : Option String
  tags : Option (List Int)
  categories : Option (List Int)
  date : Option String
  searchType : Option String
  searchValue : Option String
  tagId : Option Int
  categoryId : Option Int
  metaKey : Option String
  metaValue : Option String
  name : Option String
  description : Option String
  page : Int
  perPage : Int
  deriving DecidableEq, Repr

/-- `this.schema.safeParse(args)`. -/
def wpValidate (args : WPArgs) : Except (List ZIssue) WPData :=
  match args.action with
  | none => .error (wpIssues args)
  | some a =>
    if wpIssues args = [] then
      .ok ⟨a, args.postId, args.title, args.content, args.status,
        args.type, args.tags, args.categories, args.date,
        args.searchType, args.searchValue, args.tagId, args.categoryId,
        args.metaKey, args.metaValue, args.name, args.description,
        args.page.getD 1, args.perPage.getD 20⟩
    else .error (wpIssues args)

/-! ## WordPressTool: network requests and remote environment -/

/-- Body of the `createPost` POST: `JSON.stringify` always includes all
six keys (`date` is `null` when omitted, via the default parameter). -/
structure CreateBody where
  title : String
  content : String
  status : String
  tags : List Int
  categories : List Int
  date : Option String
  deriving DecidableEq, Repr

/-- Body of the `editPost` POST: only the fields actually supplied are
present (`JSON.stringify` omits absent keys). -/
structure EditBody where
  title : Option String := none
  content : Option String := none
  status : Option String := none
  tags : Option (List Int) := none
  categories : Option (List Int) := none
  deriving DecidableEq, Repr

/-- `Object.keys(updatedFields).length === 0`. -/
def EditBody.isEmpty (b : EditBody) : Bool :=
  b.title.isNone && b.content.isNone && b.status.isNone &&
    b.tags.isNone && b.categories.isNone

/-- `JSON.stringify(updatedFields)` in insertion order. -/
def renderEditBody (b : EditBody) : String :=
  "\x7b" ++ String.intercalate ","
    (List.filterMap id
      [b.title.map (fun v => "\"title\":" ++ jsonStr v),
       b.content.map (fun v => "\"content\":" ++ jsonStr v),
       b.status.map (fun v => "\"status\":" ++ jsonStr v),
       b.tags.map (fun v => "\"tags\":" ++ renderIntArr v),
       b.categories.map (fun v => "\"categories\":" ++ renderIntArr v)]) ++
  "\x7d"

/-- Payload of `updateCategoryOrTag`, built from the truthy fields. -/
structure CatTagPayload where
  id : Option Int := none
  name : Option String := none
  description : Option String := none
  deriving DecidableEq, Repr

/-- `Object.keys(payload).length` for the category/tag update payload. -/
def CatTagPayload.keyCount (p : CatTagPayload) : Nat :=
  (if p.id.isSome then 1 else 0) + (if p.name.isSome then 1 else 0) +
    (if p.description.isSome then 1 else 0)

/-- One outbound HTTP request of the WordPress tool, with the data that
identifies the endpoint and the payload it carries. -/
inductive WPReq where
  | auth (username password : String)
  | listPostsReq
  | createPost (ty : String) (body : CreateBody)
  | editPost (postId : Int) (body : EditBody)
  | deletePost (postId : Int)
  | categorySearch (nm : String)
  | tagSearch (nm : String)
  | postQuery (ty : String) (params : List (String × String))
  | metaQuery (ty : String) (metaKey metaValue : String)
  | updateMeta (postId : Int) (metaKey metaValue : String)
  | getPost (postId : Int)
  | deleteMeta (postId : Int) (metaKey : String)
  | listCategoriesReq
  | listTagsReq
  | updateCatTag (endpoint : String) (payload : CatTagPayload)
  | addCategory (nm : String) (descr : Option String)
  | deleteCategory (id : Int)
  | addTag (nm : String) (descr : Option String)
  | deleteTag (id : Int)
  | paginatedPosts (page perPage : Int)
  | paginatedCategories (page perPage : Int)
  | paginatedTags (page perPage : Int)
  | media (id : Int)
  deriving DecidableEq, Repr

/-- The relevant parts of a single-post fetch (`/wp-json/wp/v2/posts/id`):
`data.meta` (already rendered to JSON, absent/null when not exposed),
`data.content.rendered`, `data.featured_media`. -/
structure WPPost where
  meta : Option String := none
  contentRendered : String := ""
  featuredMedia : Option Int := none
  deriving DecidableEq, Repr

/-- Remote responses.  `Except.error m` is a non-ok HTTP status carrying
the optional `data.message`; passthrough payloads that the tool only
`JSON.stringify`s again are modelled as their rendered JSON string. -/
structure WPEnv where
  authResp : Except (Option String) String := .ok "token"
  listPostsResp : Except (Option String) (List (Int × String)) := .ok []
  catListResp : Except (Option String) String := .ok "[]"
  tagListResp : Except (Option String) String := .ok "[]"
  createResp : Except (Option String) (Int × String) := .ok (0, "")
  editResp : Except (Option String) Int := .ok 0
  deleteResp : Except (Option String) Int := .ok 0
  tagSearchResp : Except (Option String) (List Int) := .ok []
  catSearchResp : Except (Option String) (List Int) := .ok []
  queryResp : Except (Option String) (List (Int × String)) := .ok []
  metaQueryResp : Except (Option String) (List (Int × String)) := .ok []
  metaUpdateResp : Except (Option String) Int := .ok 0
  postResp : Except (Option String) WPPost := .ok {}
  metaDeleteResp : Except (Option String) Int := .ok 0
  catTagUpdateResp : Except (Option String) (Int × Option String × Option String) := .ok (0, none, none)
  addCatResp : Except (Option String) String := .ok "\x7b\x7d"
  addTagResp : Except (Option String) String := .ok "\x7b\x7d"
  deleteCatResp : Except (Option String) String := .ok "\x7b\x7d"
  deleteTagResp : Except (Option String) String := .ok "\x7b\x7d"
  paginatedPostsResp : Except (Option String) (List (Int × String)) := .ok []
  paginatedCatsResp : Except (Option String) String := .ok "[]"
  paginatedTagsResp : Except (Option String) String := .ok "[]"
  mediaResp : Except (Option String) (Option String) := .ok none

/-- Construction-time configuration (instance fields, never written by
`_call`). -/
structure WPConfig where
  baseUrl : String
  username : String
  password : String
  deriving DecidableEq, Repr

/-- `posts.map((post) => ({ id: post.id, title: post.title.rendered }))`
followed by `JSON.stringify`. -/
def renderPostList (posts : List (Int × String)) : String :=
  "[" ++ String.intercalate ","
    (posts.map fun p =>
      "\x7b\"id\":" ++ toString p.1 ++ ",\"title\":" ++ jsonStr p.2 ++ "\x7d") ++
  "]"

/-- `{ message, id, title }` success envelope of `createPost`. -/
def renderCreateEnv (msg : String) (id : Int) (title : String) : String :=
  "\x7b\"message\":" ++ jsonStr msg ++ ",\"id\":" ++ toString id ++
    ",\"title\":" ++ jsonStr title ++ "\x7d"

/-- `{ message, postId }` envelope used by the meta and delete actions. -/
def renderMsgPostId (msg : String) (postId : Int) : String :=
  "\x7b\"message\":" ++ jsonStr msg ++ ",\"postId\":" ++ toString postId ++ "\x7d"

/-- The query parameters that `searchPosts` appends for
`searchType`/`searchValue` before the taxonomy filters. -/
def searchParams0 (searchType searchValue : Option String) :
    List (String × String) :=
  if strTruthy searchType && strTruthy searchValue then
    match searchType with
    | some "contains" => [("search", searchValue.getD "")]
    | some "starts_with" => [("title", searchValue.getD "" ++ "*")]
    | some "ends_with" => [("title", "*" ++ searchValue.getD "")]
    | _ => []
  else []

/-- The `searchPosts` method (`WordPressTool.searchPosts` plus its
`getTagIdByName` / `getCategoryIdByName` lookups): returns the thrown
error or the post list, together with the requests issued in order. -/
def searchPostsM (env : WPEnv) (searchType searchValue : Option String)
    (tagId0 : Option Int) (tagName : Option String)
    (categoryId0 : Option Int) (categoryName : Option String)
    (ty : String) : Except String (List (Int × String)) × List WPReq :=
  let params0 := searchParams0 searchType searchValue
  let tagStep : Except String (Option Int) × List WPReq :=
    if strTruthy tagName then
      let nm := tagName.getD ""
      match env.tagSearchResp with
      | .error m =>
        (.error ("Failed to fetch tag ID for name \"" ++ nm ++ "\": " ++ orUnknown m),
         [.tagSearch nm])
      | .ok ids =>
        if intTruthy ids.head? then (.ok ids.head?, [.tagSearch nm])
        else (.error ("No tag found with name \"" ++ nm ++ "\"."), [.tagSearch nm])
    else (.ok tagId0, [])
  match tagStep with
  | (.error e, t1) => (.error e, t1)
  | (.ok tid, t1) =>
    let catStep : Except String (Option Int) × List WPReq :=
      if strTruthy categoryName then
        let nm := categoryName.getD ""
        match env.catSearchResp with
        | .error m =>
          (.error ("Failed to fetch category ID for name \"" ++ nm ++ "\": " ++ orUnknown m),
           [.categorySearch nm])
        | .ok ids =>
          if intTruthy ids.head? then (.ok ids.head?, [.categorySearch nm])
          else (.error ("No category found with name \"" ++ nm ++ "\"."), [.categorySearch nm])
      else (.ok categoryId0, [])
    match catStep with
    | (.error e, t2) => (.error e, t1 ++ t2)
    | (.ok cid, t2) =>
      let params := params0 ++ [("status", "any")] ++
        (if intTruthy tid then [("tags", toString (tid.getD 0))] else []) ++
        (if intTruthy cid then [("categories", toString (cid.getD 0))] else [])
      match env.queryResp with
      | .error m =>
        (.error ("Failed to search posts: " ++ orUnknown m),
         t1 ++ t2 ++ [.postQuery ty params])
      | .ok posts => (.ok posts, t1 ++ t2 ++ [.postQuery ty params])

/-- The `updateCategoryOrTag` method. -/
def updateCategoryOrTagM (env : WPEnv) (id : Int) (nm descr : Option String)
    (ty : String) : Except String String × List WPReq :=
  let endpoint := if ty == "categories" then "/custom/v1/update-category/"
                  else "/custom/v1/update-tag/"
  let payload : CatTagPayload :=
    ⟨if intTruthy (some id) then some id else none,
     if strTruthy nm then nm else none,
     if strTruthy descr then descr else none⟩
  if payload.keyCount < 2 then
    (.error ("At least one of name or description is required for updating " ++ ty ++ "."), [])
  else
    match env.catTagUpdateResp with
    | .error m =>
      (.error ("Failed to update " ++ ty ++ ": " ++ orUnknown m),
       [.updateCatTag endpoint payload])
    | .ok (i, n, dsc) =>
      (.ok ("\x7b\"message\":" ++
         jsonStr ((if ty == "categories" then "Category" else "Tag") ++ " updated successfully") ++
         ",\"id\":" ++ toString i ++
         ",\"name\":" ++ (if strTruthy n then jsonStr (n.getD "") else "null") ++
         ",\"description\":" ++ (if strTruthy dsc then jsonStr (dsc.getD "") else "null") ++
         "\x7d"),
       [.updateCatTag endpoint payload])

/-- The `switch (action)` of `WordPressTool._call`, run after validation
and after the token fetch.  `Except.ok` is a returned string,
`Except.error` an exception still in flight toward the boundary catch.
The `listPosts` and `deletePost` cases and the `default` branch are
unreachable after validation (those action names are not in the schema
enum) but are embedded as written.  The request passes `tagName` and
`categoryName` as `undefined` to `searchPosts`: the schema has no such
keys, so `safeParse` strips them from the validated data. -/
def wpDispatch (d : WPData) (env : WPEnv) : Except String String × List WPReq :=
  match d.action with
  | "listPosts" =>
    match env.listPostsResp with
    | .error m => (.error ("Failed to fetch posts: " ++ orUnknown m), [.listPostsReq])
    | .ok posts => (.ok (renderPostList posts), [.listPostsReq])
  | "createPost" =>
    if !(strTruthy d.title && strTruthy d.content) then
      (.ok (renderErrEnv "Title and content are required for creating a post or page."), [])
    else
      let ty := if strTruthy d.type then d.type.getD "" else "post"
      let body : CreateBody :=
        ⟨d.title.getD "", d.content.getD "",
         if strTruthy d.status then d.status.getD "" else "draft",
         d.tags.getD [], d.categories.getD [], d.date⟩
      match env.createResp with
      | .error m =>
        (.error ("Failed to create " ++ ty ++ ": " ++ orUnknown m), [.createPost ty body])
      | .ok (i, tr) =>
        (.ok (renderCreateEnv (jsOptStr d.type ++ " created successfully") i tr),
         [.createPost ty body])
  | "editPost" =>
    if !intTruthy d.postId then
      (.ok (renderErrEnv "postId is required for editing a post or page."), [])
    else
      let updatedFields : EditBody :=
        ⟨if strTruthy d.title then d.title else none,
         if strTruthy d.content then d.content else none,
         if strTruthy d.status then d.status else none,
         d.tags, d.categories⟩
      if updatedFields.isEmpty then
        (.ok (renderErrEnv "No fields provided for update."), [])
      else
        match env.editResp with
        | .error m =>
          (.error ("Failed to edit post: " ++ orUnknown m),
           [.editPost (d.postId.getD 0) updatedFields])
        | .ok rid =>
          (.ok ("\x7b\"message\":" ++ jsonStr "Post updated successfully" ++
             ",\"id\":" ++ toString rid ++
             ",\"updatedFields\":" ++ renderEditBody updatedFields ++ "\x7d"),
           [.editPost (d.postId.getD 0) updatedFields])
  | "deletePost" =>
    if !intTruthy d.postId then
      (.ok "Error: postId is required for deleting a post.", [])
    else
      match env.deleteResp with
      | .error m =>
        (.error ("Failed to delete post: " ++ orUnknown m), [.deletePost (d.postId.getD 0)])
      | .ok rid =>
        (.ok (renderMsgPostId "Post deleted successfully" rid), [.deletePost (d.postId.getD 0)])
  | "searchPosts" =>
    let ty := if strTruthy d.type then d.type.getD "" else "post"
    match searchPostsM env d.searchType d.searchValue d.tagId none d.categoryId none ty with
    | (.error e, t) => (.error e, t)
    | (.ok posts, t) => (.ok (renderPostList posts), t)
  | "listCategories" =>
    match env.catListResp with
    | .error m => (.error ("Failed to fetch categories: " ++ orUnknown m), [.listCategoriesReq])
    | .ok s => (.ok s, [.listCategoriesReq])
  | "listTags" =>
    match env.tagListResp with
    | .error m => (.error ("Failed to fetch tags: " ++ orUnknown m), [.listTagsReq])
    | .ok s => (.ok s, [.listTagsReq])
  | "searchByMeta" =>
    if !(strTruthy d.metaKey && strTruthy d.metaValue) then
      (.ok (renderErrEnv "Meta key and value are required for searching."), [])
    else
      let ty := if strTruthy d.type then d.type.getD "" else "post"
      match env.metaQueryResp with
      | .error m =>
        (.error ("Failed to search by meta: " ++ orUnknown m),
         [.metaQuery ty (d.metaKey.getD "") (d.metaValue.getD "")])
      | .ok posts =>
        (.ok (renderPostList posts),
         [.metaQuery ty (d.metaKey.getD "") (d.metaValue.getD "")])
  | "updatePostMeta" =>
    if !(intTruthy d.postId && strTruthy d.metaKey && strTruthy d.metaValue) then
      (.ok (renderErrEnv "postId, metaKey, and metaValue are required for updating meta."), [])
    else
      match env.metaUpdateResp with
      | .error m =>
        (.error ("Failed to update post meta: " ++ orUnknown m),
         [.updateMeta (d.postId.getD 0) (d.metaKey.getD "") (d.metaValue.getD "")])
      | .ok rid =>
        (.ok (renderMsgPostId "Post meta updated successfully" rid),
         [.updateMeta (d.postId.getD 0) (d.metaKey.getD "") (d.metaValue.getD "")])
  | "getPostMeta" =>
    if !intTruthy d.postId then
      (.ok (renderErrEnv "postId is required to fetch post meta."), [])
    else
      match env.postResp with
      | .error m =>
        (.error ("Failed to fetch post meta: " ++ orUnknown m), [.getPost (d.postId.getD 0)])
      | .ok post =>
        let metaJson := match post.meta with
          | some m => m
          | none => renderErrEnv "Meta not available. Ensure it is exposed in the REST API."
        (.ok ("\x7b\"postId\":" ++ toString (d.postId.getD 0) ++ ",\"meta\":" ++ metaJson ++ "\x7d"),
         [.getPost (d.postId.getD 0)])
  | "deletePostMeta" =>
    if !(intTruthy d.postId && strTruthy d.metaKey) then
      (.ok (renderErrEnv "postId is required to fetch post meta."), [])
    else
      match env.metaDeleteResp with
      | .error m =>
        (.error ("Failed to delete post meta: " ++ orUnknown m),
         [.deleteMeta (d.postId.getD 0) (d.metaKey.getD "")])
      | .ok rid =>
        (.ok (renderMsgPostId "Post meta deleted successfully" rid),
         [.deleteMeta (d.postId.getD 0) (d.metaKey.getD "")])
  | "updateCategory" =>
    if !intTruthy d.categoryId then
      (.ok (renderErrEnv "categoryId is required."), [])
    else if !(strTruthy d.name || strTruthy d.description) then
      (.ok (renderErrEnv "At least one of name or description is required."), [])
    else
      -- inner try/catch: a thrown update error is caught here, not at the boundary
      match updateCategoryOrTagM env (d.categoryId.getD 0) d.name d.description "categories" with
      | (.error e, t) => (.ok (renderErrEnv e), t)
      | (.ok s, t) => (.ok s, t)
  | "updateTag" =>
    if !intTruthy d.tagId then
      (.ok (renderErrEnv "tagId is required."), [])
    else if !(strTruthy d.name || strTruthy d.description) then
      (.ok (renderErrEnv "At least one of name or description is required."), [])
    else
      match updateCategoryOrTagM env (d.tagId.getD 0) d.name d.description "tags" with
      | (.error e, t) => (.ok (renderErrEnv e), t)
      | (.ok s, t) => (.ok s, t)
  | "addCategory" =>
    if !strTruthy d.name then (.ok (renderErrEnv "Category name is required."), [])
    else
      match env.addCatResp with
      | .error m =>
        (.error ("Failed to add category: " ++ orUnknown m),
         [.addCategory (d.name.getD "") d.description])
      | .ok s => (.ok s, [.addCategory (d.name.getD "") d.description])
  | "addTag" =>
    if !strTruthy d.name then (.ok (renderErrEnv "Tag name is required."), [])
    else
      match env.addTagResp with
      | .error m =>
        (.error ("Failed to add tag: " ++ orUnknown m),
         [.addTag (d.name.getD "") d.description])
      | .ok s => (.ok s, [.addTag (d.name.getD "") d.description])
  | "deleteCategory" =>
    if !intTruthy d.categoryId then (.ok (renderErrEnv "Category ID is required."), [])
    else
      match env.deleteCatResp with
      | .error m =>
        (.error ("Failed to delete category: " ++ orUnknown m),
         [.deleteCategory (d.categoryId.getD 0)])
      | .ok s => (.ok s, [.deleteCategory (d.categoryId.getD 0)])
  | "deleteTag" =>
    if !intTruthy d.tagId then (.ok (renderErrEnv "Tag ID is required."), [])
    else
      match env.deleteTagResp with
      | .error m =>
        (.error ("Failed to delete tag: " ++ orUnknown m), [.deleteTag (d.tagId.getD 0)])
      | .ok s => (.ok s, [.deleteTag (d.tagId.getD 0)])
  | "listPaginatedPosts" =>
    match env.paginatedPostsResp with
    | .error _ => (.error "Failed to fetch paginated posts", [.paginatedPosts d.page d.perPage])
    | .ok posts => (.ok (renderPostList posts), [.paginatedPosts d.page d.perPage])
  | "getPostContentById" =>
    if !intTruthy d.postId then (.ok (renderErrEnv "postId is required"), [])
    else
      match env.postResp with
      | .error _ => (.error "Failed to fetch post content", [.getPost (d.postId.getD 0)])
      | .ok post =>
        (.ok ("\x7b\"postId\":" ++ toString (d.postId.getD 0) ++
           ",\"content\":" ++ jsonStr post.contentRendered ++ "\x7d"),
         [.getPost (d.postId.getD 0)])
  | "getFeaturedImage" =>
    if !intTruthy d.postId then (.ok (renderErrEnv "postId is required"), [])
    else
      match env.postResp with
      | .error _ => (.error "Failed to fetch post details", [.getPost (d.postId.getD 0)])
      | .ok post =>
        if !intTruthy post.featuredMedia then
          (.ok ("\x7b\"postId\":" ++ toString (d.postId.getD 0) ++
             ",\"imageUrl\":" ++ jsonStr "No featured image" ++ "\x7d"),
           [.getPost (d.postId.getD 0)])
        else
          match env.mediaResp with
          | .error _ =>
            (.error "Failed to fetch featured image details",
             [.getPost (d.postId.getD 0), .media (post.featuredMedia.getD 0)])
          | .ok guidRendered =>
            let url := if strTruthy guidRendered then guidRendered.getD ""
                       else "No featured image available"
            (.ok ("\x7b\"postId\":" ++ toString (d.postId.getD 0) ++
               ",\"imageUrl\":" ++ jsonStr url ++ "\x7d"),
             [.getPost (d.postId.getD 0), .media (post.featuredMedia.getD 0)])
  | "listPaginatedCategories" =>
    match env.paginatedCatsResp with
    | .error _ =>
      (.error "Failed to fetch paginated categories", [.paginatedCategories d.page d.perPage])
    | .ok s => (.ok s, [.paginatedCategories d.page d.perPage])
  | "listPaginatedTags" =>
    match env.paginatedTagsResp with
    | .error _ =>
      (.error "Failed to fetch paginated tags", [.paginatedTags d.page d.perPage])
    | .ok s => (.ok s, [.paginatedTags d.page d.perPage])
  | _ => (.ok (renderErrEnv ("Unsupported action \"" ++ d.action ++ "\".")), [])

/-- Body of the `try` block of `WordPressTool._call`: validate, fetch
the token, dispatch.  The token is fetched before the `switch`, so the
authentication request is issued for every request that passes schema
validation. -/
def wpRun (cfg : WPConfig) (args : WPArgs) (env : WPEnv) :
    Except String String × List WPReq :=
  match wpValidate args with
  | .error issues => (.ok ("Validation Error: " ++ renderIssues issues), [])
  | .ok d =>
    match env.authResp with
    | .error m =>
      (.error ("Authentication failed: " ++ orUnknown m),
       [.auth cfg.username cfg.password])
    | .ok _tok =>
      let (r, t) := wpDispatch d env
      (r, .auth cfg.username cfg.password :: t)

/-- Result of one `_call` invocation: the returned string, the network
requests issued, and the instance state after the call. -/
structure WPOut where
  result : String
  trace : List WPReq
  finalState : WPConfig
  deriving DecidableEq, Repr

/-- `WordPressTool._call`: the body wrapped in the boundary `try/catch`
(`return JSON.stringify({ error: error.message })`).  `_call` contains
no assignment to `this`, so the final instance state is the
configuration it started with. -/
def wpCall (cfg : WPConfig) (args : WPArgs) (env : WPEnv) : WPOut :=
  match wpRun cfg args env with
  | (.ok s, t) => ⟨s, t, cfg⟩
  | (.error e, t) => ⟨renderErrEnv e, t, cfg⟩

/-! ## PortdoxTool -/

/-- The raw action request handed to `PortdoxTool._call`. -/
structure PArgs where
  action : Option String := none
  page : Option Int := none
  per_page : Option Int := none
  ref_number : Option String := none
  container_number : Option String := none
  container_type : Option String := none
  seal_no_1 : Option String := none
  seal_no_2 : Option String := none
  empty_pickup_date : Option String := none
  full_return_date : Option String := none
  booking_id : Option String := none
  container_status : Option String := none
  load_id : Option String := none
  deriving Repr

/-- Validated Portdox data: the schema has no defaults, so `page` and
`per_page` stay optional; only `action` can fail on a JSON-typed
request. -/
structure PData where
  action : String
  page : Option Int
  per_page : Option Int
  ref_number : Option String
  container_number : Option String
  container_type : Option String
  seal_no_1 : Option String
  seal_no_2 : Option String
  empty_pickup_date : Option String
  full_return_date : Option String
  booking_id : Option String
  container_status : Option String
  load_id : Option String
  deriving DecidableEq, Repr

/-- The three Portdox action names. -/
def pActionEnum : List String :=
  ["list_load_requests", "search_by_ref", "update_container"]

/-- `this.schema.parse(args)` for Portdox: an error is the thrown
`ZodError`, whose `message` renders the issue list. -/
def pValidate (args : PArgs) : Except (List ZIssue) PData :=
  match args.action with
  | none => .error [⟨["action"], "Required"⟩]
  | some a =>
    if a ∈ pActionEnum then
      .ok ⟨a, args.page, args.per_page, args.ref_number,
        args.container_number, args.container_type, args.seal_no_1,
        args.seal_no_2, args.empty_pickup_date, args.full_return_date,
        args.booking_id, args.container_status, args.load_id⟩
    else .error [⟨["action"], "Invalid enum value"⟩]

/-- The `updateContainer` payload, spread into the POST body after the
`auth_token` (keys with `undefined` values are dropped by the JSON
serialization). -/
structure ContainerPayload where
  container_number : Option String := none
  container_type : Option String := none
  seal_no_1 : Option String := none
  seal_no_2 : Option String := none
  empty_pickup_date : Option String := none
  full_return_date : Option String := none
  booking_id : Option String := none
  container_status : Option String := none
  load_id : Option String := none
  deriving DecidableEq, Repr

/-- One outbound Portdox request. -/
inductive PReq where
  | loadList (auth_token : String) (page per_page : Int) (ref : Option String)
  | containerUpdate (auth_token : String) (payload : ContainerPayload)
  deriving DecidableEq, Repr

/-- One item of the Laravel listing response (`response.data.data.data`). -/
structure LoadItem where
  load_id : String
  ref_number : String
  total_cars : Int
  deriving Repr

/-- The Laravel listing response body. -/
structure LoadResp where
  success : Bool
  items : List LoadItem
  err : Option String := none
  deriving Repr

/-- The container-update response body. -/
structure UpdResp where
  success : Bool
  err : Option String := none
  deriving Repr

/-- Remote responses for Portdox; `Except.error m` is a rejected axios
promise with message `m`. -/
structure PEnv where
  loadResp : Except String LoadResp := .ok ⟨true, [], none⟩
  updResp : Except String UpdResp := .ok ⟨true, none⟩

/-- The Portdox instance fields, all set to constants in the
constructor and never written afterwards. -/
structure PConfig where
  laravelApiUrl : String := "https://login.portdox.com/api/list_load_requests"
  updateContainerApiUrl : String := "https://login.portdox.com/api/submit_temp_container"
  laravelAuthToken : String := "454541121asdf45adfa454f545"
  deriving DecidableEq, Repr

/-- `PortdoxTool.getLoadRequests`: destructuring defaults `page = 1`,
`per_page = 5`; `ref_number` is added to the query only when truthy;
axios errors are caught inside this method. -/
def getLoadRequestsM (cfg : PConfig) (env : PEnv) (page per_page : Option Int)
    (ref : Option String) : String × List PReq :=
  let req : PReq :=
    .loadList cfg.laravelAuthToken (page.getD 1) (per_page.getD 5)
      (if strTruthy ref then ref else none)
  match env.loadResp with
  | .error m => ("⚠️ Laravel API Error: " ++ m, [req])
  | .ok r =>
    if r.success then
      (String.intercalate "\n"
        (r.items.map fun it =>
          "- Load ID: " ++ it.load_id ++ " Ref: " ++ it.ref_number ++
            " | Total: " ++ toString it.total_cars),
       [req])
    else ("❌ API Error: " ++ jsOptStr r.err, [req])

/-- `PortdoxTool.updateContainer`: requires a truthy `load_id`; axios
errors are caught inside this method. -/
def updateContainerM (cfg : PConfig) (env : PEnv) (data : ContainerPayload) :
    String × List PReq :=
  if !strTruthy data.load_id then
    ("❌ Error: Load ID is required for updating.", [])
  else
    match env.updResp with
    | .error m => ("⚠️ Update API Error: " ++ m, [.containerUpdate cfg.laravelAuthToken data])
    | .ok r =>
      if r.success then
        ("✅ Container " ++ jsOptStr data.container_number ++ " updated successfully.",
         [.containerUpdate cfg.laravelAuthToken data])
      else ("❌ Update Error: " ++ jsOptStr r.err, [.containerUpdate cfg.laravelAuthToken data])

/-- Body of the `try` block of `PortdoxTool._call`: `schema.parse`
(throws on failure), then dispatch.  `search_by_ref` reuses
`getLoadRequests` with only `ref_number`, so the listing defaults
apply. -/
def portdoxRun (cfg : PConfig) (args : PArgs) (env : PEnv) :
    Except String String × List PReq :=
  match pValidate args with
  | .error issues => (.error (renderIssues issues), [])
  | .ok d =>
    match d.action with
    | "list_load_requests" =>
      let (s, t) := getLoadRequestsM cfg env d.page d.per_page d.ref_number
      (.ok s, t)
    | "search_by_ref" =>
      if !strTruthy d.ref_number then
        (.ok "❌ Error: Reference number is required for searching.", [])
      else
        let (s, t) := getLoadRequestsM cfg env none none d.ref_number
        (.ok s, t)
    | "update_container" =>
      if !strTruthy d.container_number then
        (.ok "❌ Error: Container number is required for updating.", [])
      else
        let (s, t) := updateContainerM cfg env
          ⟨d.container_number, d.container_type, d.seal_no_1, d.seal_no_2,
           d.empty_pickup_date, d.full_return_date, d.booking_id,
           d.container_status, d.load_id⟩
        (.ok s, t)
    | _ => (.ok "❌ Error: Invalid action specified.", [])

/-- Result of one Portdox `_call`: the returned string, the requests
issued, and the instance state (constructor constants) after the call. -/
structure POut where
  result : String
  trace : List PReq
  finalState : PConfig
  deriving DecidableEq, Repr

/-- `PortdoxTool._call`: the body wrapped in the boundary `try/catch`
(`return` the `⚠️ Plugin Error:` string).  `_call` contains no
assignment to `this`, so the final state is the constructor
configuration. -/
def portdoxCall (cfg : PConfig) (args : PArgs) (env : PEnv) : POut :=
  match portdoxRun cfg args env with
  | (.ok s, t) => ⟨s, t, cfg⟩
  | (.error e, t) => ⟨"⚠️ Plugin Error: " ++ e, t, cfg⟩

/-! ## FluxAPI (image generation, bundled in `tools/index.js`) -/

/-- The raw data handed to `FluxAPI._call` (the method itself performs
no schema validation; the destructuring defaults are applied inside). -/
structure FluxArgs where
  prompt : Option String := none
  width : Option Int := none
  height : Option Int := none
  steps : Option Int := none
  prompt_upsampling : Option Bool := none
  seed : Option Int := none
  safety_tolerance : Option Int := none
  output_format : Option String := none
  endpoint : Option String := none
  number_of_images : Option Int := none
  raw : Option Bool := none
  deriving Repr

/-- Construction-time FluxAPI configuration. -/
structure FluxCfg where
  apiKey : String
  isAgent : Bool
  deriving Repr

/-- The mutable instance state: `this.result` (`undefined` until the
first fully successful `_call`, which stores the markdown embed list). -/
structure FluxState where
  result : Option (List String) := none
  deriving DecidableEq, Repr

/-- The generation payload POSTed for every image. -/
structure FluxPayload where
  prompt : String
  width : Int
  height : Int
  steps : Int
  prompt_upsampling : Bool
  seed : Option Int
  safety_tolerance : Int
  output_format : String
  raw : Bool
  deriving DecidableEq, Repr

/-- One outbound FluxAPI operation: a job submission, a result poll
(with the wait in milliseconds that precedes it), or the image
download/save via `processFileURL`. -/
inductive FluxReq where
  | submit (endpoint : String) (payload : FluxPayload)
  | poll (taskId : Int) (waitMs : Nat)
  | saveFile (url : String)
  deriving DecidableEq, Repr

/-- `resultResponse.data.result` when present. -/
structure FluxResultData where
  sample : Option String := none
  deriving DecidableEq, Repr

/-- One polling response body. -/
structure PollResp where
  status : String
  result : Option FluxResultData := none
  deriving DecidableEq, Repr

/-- Remote responses for FluxAPI, indexed by the image number and (for
polls) the poll attempt; `Except.error m` is a rejected axios promise. -/
structure FluxEnv where
  submitResp : Nat → Except String Int
  pollResp : Nat → Nat → Except String PollResp
  saveResp : Nat → Except String String

/-- What `this.returnValue(value)` produces. -/
inductive RetVal where
  | strPair (s : String)
  | pair (msg : String) (embeds : List String)
  | jsUndefined
  deriving DecidableEq, Repr

/-- The fixed agent message of `returnValue` for object values. -/
def dalleNote : String :=
  "DALL-E displayed an image. All generated images are already plainly visible, so don\x27t repeat the descriptions in detail. Do not list download links as they are available in the UI already. The user may download the images by clicking on them, but do not mention anything about downloading to the user."

/-- A value passed to `returnValue`: the error strings, or the final
result object holding the markdown embeds. -/
inductive FluxVal where
  | vstr (s : String)
  | vobj (embeds : List String)
  deriving DecidableEq, Repr

/-- `FluxAPI.returnValue`: wraps for an agent, or evaluates to
`undefined` otherwise (the method has no `else` branch). -/
def returnValue (cfg : FluxCfg) : FluxVal → RetVal
  | .vstr s => if cfg.isAgent then .strPair s else .jsUndefined
  | .vobj e => if cfg.isAgent then .pair dalleNote e else .jsUndefined

/-- Outcome of the polling loop. -/
inductive PollOut where
  | ready (res : Option FluxResultData)
  | errStatus
  | caught
  | fuelOut
  deriving DecidableEq, Repr

/-- The `while (status !== 'Ready' && status !== 'Error')` polling loop
for one submitted job: each iteration waits 2000 ms, then GETs the
result endpoint.  `status` starts as `'Pending'`, so the body always
runs at least once; the source has no attempt bound, so the loop is
embedded with explicit fuel and `fuelOut` marks an unfinished run. -/
def pollLoop (poll : Nat → Except String PollResp) (taskId : Int) :
    Nat → Nat → PollOut × List FluxReq
  | 0, _ => (.fuelOut, [])
  | fuel + 1, j =>
    match poll j with
    | .error _ => (.caught, [.poll taskId 2000])
    | .ok r =>
      if r.status == "Ready" then (.ready r.result, [.poll taskId 2000])
      else if r.status == "Error" then (.errStatus, [.poll taskId 2000])
      else
        let (o, t) := pollLoop poll taskId fuel (j + 1)
        (o, FluxReq.poll taskId 2000 :: t)

/-- Outcome of the `for` loop over the images. -/
inductive LoopOut where
  | completed (markdown : String)
  | early (v : FluxVal)
  | fuelOut
  deriving DecidableEq, Repr

/-- The `for (let i = 0; i < totalImages; i++)` loop: submit the job,
poll until terminal, check the result data, save the image, append the
markdown embed; any failure returns immediately, short-circuiting the
remaining images. -/
def imagesLoop (env : FluxEnv) (endpoint : String) (payload : FluxPayload)
    (fuel : Nat) : Nat → Nat → String → LoopOut × List FluxReq
  | 0, _, acc => (.completed acc, [])
  | k + 1, i, acc =>
    match env.submitResp i with
    | .error d =>
      (.early (.vstr ("Something went wrong when trying to generate the image. The Flux API may be unavailable:\n          Error Message: " ++ d)),
       [.submit endpoint payload])
    | .ok taskId =>
      match pollLoop (env.pollResp i) taskId fuel 0 with
      | (.fuelOut, pt) => (.fuelOut, .submit endpoint payload :: pt)
      | (.caught, pt) =>
        (.early (.vstr "An error occurred while retrieving the image."),
         .submit endpoint payload :: pt)
      | (.errStatus, pt) =>
        (.early (.vstr "An error occurred during image generation."),
         .submit endpoint payload :: pt)
      | (.ready res, pt) =>
        match res with
        | none =>
          (.early (.vstr "No image data received from Flux API."),
           .submit endpoint payload :: pt)
        | some rd =>
          if strTruthy rd.sample then
            match env.saveResp i with
            | .error d =>
              (.early (.vstr ("Failed to save the image locally. " ++ d)),
               .submit endpoint payload :: (pt ++ [.saveFile (rd.sample.getD "")]))
            | .ok fp =>
              let (o, t) := imagesLoop env endpoint payload fuel k (i + 1)
                (acc ++ "![generated image](" ++ fp ++ ")\n")
              (o, .submit endpoint payload :: (pt ++ [.saveFile (rd.sample.getD "")] ++ t))
          else
            (.early (.vstr "No image data received from Flux API."),
             .submit endpoint payload :: pt)

/-- JS `String.prototype.trim()`: strip whitespace from both ends. -/
def jsTrim (s : String) : String :=
  ⟨((s.data.dropWhile Char.isWhitespace).reverse.dropWhile
      Char.isWhitespace).reverse⟩

/-- Helper for `split('\n')`: accumulate the current segment. -/
def splitNlAux : List Char → List Char → List String
  | [], acc => [⟨acc.reverse⟩]
  | c :: cs, acc =>
    if c = '\n' then ⟨acc.reverse⟩ :: splitNlAux cs []
    else splitNlAux cs (c :: acc)

/-- JS `String.prototype.split('\n')`. -/
def jsSplitNl (s : String) : List String := splitNlAux s.data []

/-- The generation payload built from the destructured request fields
with their destructuring defaults. -/
def fluxPayloadOf (args : FluxArgs) : FluxPayload :=
  ⟨args.prompt.getD "", args.width.getD 1024, args.height.getD 768,
   args.steps.getD 40, args.prompt_upsampling.getD false, args.seed,
   args.safety_tolerance.getD 6, args.output_format.getD "png",
   args.raw.getD false⟩

/-- What a FluxAPI `_call` invocation does: return a value, throw an
uncaught exception, or (fuel artifact) still be polling. -/
inductive FluxRet where
  | returned (v : RetVal)
  | thrown (msg : String)
  | fuelOut
  deriving DecidableEq, Repr

/-- Result of one FluxAPI `_call`. -/
structure FluxOut where
  ret : FluxRet
  finalState : FluxState
  trace : List FluxReq
  deriving DecidableEq, Repr

/-- `FluxAPI._call`: destructuring defaults, the uncaught
`throw new Error('Missing required field: prompt')` for a falsy prompt,
the clamp `totalImages = Math.min(Math.max(number_of_images, 1), 24)`,
the image loop, and on full completion the assignment
`this.result = { 'Markdown Embeds for User': ... }` before returning.
There is no `try/catch` around the body. -/
def fluxCall (cfg : FluxCfg) (st : FluxState) (args : FluxArgs)
    (env : FluxEnv) (fuel : Nat) : FluxOut :=
  if strTruthy args.prompt then
    let endpoint := args.endpoint.getD "/v1/flux-pro"
    let payload := fluxPayloadOf args
    let totalImages : Int := min (max (args.number_of_images.getD 1) 1) 24
    match imagesLoop env endpoint payload fuel totalImages.toNat 0 "" with
    | (.completed md, t) =>
      let embeds := jsSplitNl (jsTrim md)
      ⟨.returned (returnValue cfg (.vobj embeds)), ⟨some embeds⟩, t⟩
    | (.early v, t) => ⟨.returned (returnValue cfg v), st, t⟩
    | (.fuelOut, t) => ⟨.fuelOut, st, t⟩
  else ⟨.thrown "Missing required field: prompt", st, []⟩

/-- Number of job-submission requests in a trace. -/
def countSubmits (t : List FluxReq) : Nat :=
  t.countP fun r => match r with | .submit _ _ => true | _ => false

/-! ## Shared sample values for concrete runs -/

/-- A sample WordPress configuration. -/
def wpCfg0 : WPConfig := ⟨"https://wp.example", "u", "p"⟩

/-- A sample WordPress environment, all endpoints answering defaults. -/
def wpEnv0 : WPEnv := {}

/-- A sample Portdox configuration (the constructor constants). -/
def pCfg0 : PConfig := {}

/-- A sample Portdox environment. -/
def pEnv0 : PEnv := {}

/-- A Flux environment in which every submission, poll and save
succeeds at the first attempt. -/
def fluxEnvOk : FluxEnv :=
  ⟨fun i => .ok (Int.ofNat i),
   fun _ _ => .ok ⟨"Ready", some ⟨some "http://img.example/s.png"⟩⟩,
   fun _ => .ok "images/img-0.png"⟩

/-- A sample Flux configuration acting for an agent. -/
def fluxCfg0 : FluxCfg := ⟨"key", true⟩

/-! ## Helper lemmas -/

/-- Unfolding a successful `safeParse`: validation passed and every
field of the validated data comes from the request, with the zod
defaults for `page` and `perPage`. -/
theorem wpValidate_ok_shape (args : WPArgs) (d : WPData)
    (h : wpValidate args = .ok d) :
    wpIssues args = [] ∧ args.action = some d.action ∧
    d = ⟨d.action, args.postId, args.title, args.content, args.status,
      args.type, args.tags, args.categories, args.date,
      args.searchType, args.searchValue, args.tagId, args.categoryId,
      args.metaKey, args.metaValue, args.name, args.description,
      args.page.getD 1, args.perPage.getD 20⟩ := by
  cases ha : args.action with
  | none => simp [wpValidate, ha] at h
  | some a =>
    simp only [wpValidate, ha] at h
    split at h
    · next hi =>
        cases h
        exact ⟨hi, rfl, rfl⟩
    · simp at h

/-- A `status` accepted by the schema is one of the three enum values. -/
theorem wpValidate_ok_status (args : WPArgs) (d : WPData) (s : String)
    (h : wpValidate args = .ok d) (hs : d.status = some s) :
    s = "draft" ∨ s = "publish" ∨ s = "future" := by
  obtain ⟨hi, -, hd⟩ := wpValidate_ok_shape args d h
  have hstat : checkOptEnum "status" wpStatusEnum args.status = [] := by
    have h6 := hi
    simp only [wpIssues, List.append_eq_nil] at h6
    tauto
  have hargs : args.status = some s := by rw [hd] at hs; exact hs
  rw [hargs] at hstat
  simp only [checkOptEnum] at hstat
  by_cases hmem : s ∈ wpStatusEnum
  · simpa [wpStatusEnum] using hmem
  · rw [if_neg hmem] at hstat; exact absurd hstat (by simp)

/-- The first issue of the rendered issue array appears right after the
opening bracket. -/
theorem renderIssues_first (i : ZIssue) (tl : List ZIssue) :
    ∃ s, renderIssues (i :: tl) = "[" ++ renderIssue i ++ s := by
  cases tl with
  | nil =>
    exact ⟨"]", by simp [renderIssues, renderIssueList, String.append_assoc]⟩
  | cons j tl' =>
    exact ⟨"," ++ renderIssueList (j :: tl') ++ "]",
      by simp [renderIssues, renderIssueList, String.append_assoc]⟩

/-! ## Claims -/

/-- C1: for every action request that fails schema validation,
`_call` returns an error-envelope string whose issue array starts with
the first validation issue, and the network trace is empty: neither the
authentication endpoint nor any remote API endpoint is contacted.  This
holds for `WordPressTool._call` (which checks `safeParse` before
`getToken`) and for `PortdoxTool._call` (whose `schema.parse` throws
into the boundary catch before any request). -/
theorem C1_validation_failure_no_network :
    (∀ (cfg : WPConfig) (args : WPArgs) (env : WPEnv) (issues : List ZIssue),
      wpValidate args = .error issues →
        wpCall cfg args env =
          ⟨"Validation Error: " ++ renderIssues issues, [], cfg⟩ ∧
        ∀ i tl, issues = i :: tl →
          ∃ s, (wpCall cfg args env).result =
            "Validation Error: [" ++ renderIssue i ++ s) ∧
    (∀ (cfg : PConfig) (args : PArgs) (env : PEnv) (issues : List ZIssue),
      pValidate args = .error issues →
        portdoxCall cfg args env =
          ⟨"⚠️ Plugin Error: " ++ renderIssues issues, [], cfg⟩ ∧
        ∀ i tl, issues = i :: tl →
          ∃ s, (portdoxCall cfg args env).result =
            "⚠️ Plugin Error: [" ++ renderIssue i ++ s) := by
  constructor
  · intro cfg args env issues h
    have hcall : wpCall cfg args env =
        ⟨"Validation Error: " ++ renderIssues issues, [], cfg⟩ := by
      simp [wpCall, wpRun, h]
    refine ⟨hcall, ?_⟩
    intro i tl hit
    obtain ⟨s, hs⟩ := renderIssues_first i tl
    refine ⟨s, ?_⟩
    rw [hcall]
    simp only [hit, hs]
    rw [← String.append_assoc, ← String.append_assoc,
      show ("Validation Error: " ++ "[" : String) = "Validation Error: [" from rfl]
  · intro cfg args env issues h
    have hcall : portdoxCall cfg args env =
        ⟨"⚠️ Plugin Error: " ++ renderIssues issues, [], cfg⟩ := by
      simp [portdoxCall, portdoxRun, h]
    refine ⟨hcall, ?_⟩
    intro i tl hit
    obtain ⟨s, hs⟩ := renderIssues_first i tl
    refine ⟨s, ?_⟩
    rw [hcall]
    simp only [hit, hs]
    rw [← String.append_assoc, ← String.append_assoc,
      show ("⚠️ Plugin Error: " ++ "[" : String) = "⚠️ Plugin Error: [" from rfl]

/-- Witness for C1: the request `{action: "listPosts"}` fails WordPress
validation (`listPosts` is not in the schema enum) and produces the
envelope with an empty trace; likewise a bogus Portdox action. -/
theorem C1_validation_failure_no_network_witness :
    wpCall wpCfg0 { action := some "listPosts" } wpEnv0 =
      ⟨"Validation Error: " ++
        renderIssues [⟨["action"], "Invalid enum value"⟩], [], wpCfg0⟩ ∧
    portdoxCall pCfg0 { action := some "bogus" } pEnv0 =
      ⟨"⚠️ Plugin Error: " ++
        renderIssues [⟨["action"], "Invalid enum value"⟩], [], pCfg0⟩ := by
  constructor
  · exact (C1_validation_failure_no_network.1 wpCfg0 { action := some "listPosts" }
      wpEnv0 [⟨["action"], "Invalid enum value"⟩] rfl).1
  · exact (C1_validation_failure_no_network.2 pCfg0 { action := some "bogus" }
      pEnv0 [⟨["action"], "Invalid enum value"⟩] rfl).1

/-- C2 counterexample: for the createPost request that passes schema
validation but omits both `title` and `content`, `_call` does return
the claimed envelope, but the network trace is not empty: the
authentication request has already been issued, because `getToken()`
runs before the `switch` and hence before the title/content check. -/
theorem C2_counterexample_auth_call_issued :
    (wpCall wpCfg0 { action := some "createPost" } wpEnv0).result =
      renderErrEnv "Title and content are required for creating a post or page." ∧
    (wpCall wpCfg0 { action := some "createPost" } wpEnv0).trace = [.auth "u" "p"] ∧
    (wpCall wpCfg0 { action := some "createPost" } wpEnv0).trace ≠ [] := by
  refine ⟨rfl, rfl, ?_⟩
  rw [show (wpCall wpCfg0 { action := some "createPost" } wpEnv0).trace =
    [.auth "u" "p"] from rfl]
  simp

/-- C2 (amended): a `createPost` request that passes schema validation
but lacks a truthy `title` or `content` returns the envelope
`{error: "Title and content are required for creating a post or page."}`,
but only after one network call — the authentication request — has been
issued (assuming authentication succeeds); no `createPost` request is
made. -/
theorem C2_missing_title_content_envelope_after_auth
    (cfg : WPConfig) (args : WPArgs) (env : WPEnv) (d : WPData) (tok : String)
    (hv : wpValidate args = .ok d)
    (ha : d.action = "createPost")
    (ht : (strTruthy d.title && strTruthy d.content) = false)
    (henv : env.authResp = .ok tok) :
    wpCall cfg args env =
      ⟨renderErrEnv "Title and content are required for creating a post or page.",
       [.auth cfg.username cfg.password], cfg⟩ := by
  simp [wpCall, wpRun, hv, henv, wpDispatch, ha, ht]

/-- Witness for C2 (amended): the request `{action: "createPost"}` with
a succeeding authentication endpoint. -/
theorem C2_missing_title_content_envelope_after_auth_witness :
    wpCall wpCfg0 { action := some "createPost" } wpEnv0 =
      ⟨renderErrEnv "Title and content are required for creating a post or page.",
       [.auth "u" "p"], wpCfg0⟩ :=
  C2_missing_title_content_envelope_after_auth wpCfg0
    { action := some "createPost" } wpEnv0
    ⟨"createPost", none, none, none, none, none, none, none, none, none,
     none, none, none, none, none, none, none, 1, 20⟩
    "token" rfl rfl rfl rfl

/-- C3 counterexample: for the request
`{action: "createPost", title: "T", content: "C"}` with the remote
answering `{id: 7, title: {rendered: "T"}}`, the remote body is exactly
the claimed one, but the returned envelope's message is
`"undefined created successfully"`, not `"post created successfully"`:
the template literal interpolates the raw `type` field, which is
`undefined` when omitted. -/
theorem C3_counterexample_message_undefined :
    (wpCall wpCfg0
      { action := some "createPost", title := some "T", content := some "C" }
      { createResp := .ok (7, "T") }).result =
      renderCreateEnv "undefined created successfully" 7 "T" ∧
    (wpCall wpCfg0
      { action := some "createPost", title := some "T", content := some "C" }
      { createResp := .ok (7, "T") }).result ≠
      renderCreateEnv "post created successfully" 7 "T" := by
  refine ⟨rfl, ?_⟩
  rw [show (wpCall wpCfg0
      { action := some "createPost", title := some "T", content := some "C" }
      { createResp := .ok (7, "T") }).result =
    renderCreateEnv "undefined created successfully" 7 "T" from rfl]
  decide

/-- C3 (amended): for the request
`{action: "createPost", title: "T", content: "C"}` with no status, the
remote call body is exactly
`{title: "T", content: "C", status: "draft", tags: [], categories: [], date: null}`
(defaults applied for every omitted optional field), and given the
success response `{id: 7, title: {rendered: "T"}}` the returned
envelope is
`{message: "undefined created successfully", id: 7, title: "T"}`. -/
theorem C3_create_defaults_and_envelope :
    wpCall wpCfg0
      { action := some "createPost", title := some "T", content := some "C" }
      { createResp := .ok (7, "T") } =
      ⟨renderCreateEnv "undefined created successfully" 7 "T",
       [.auth "u" "p", .createPost "post" ⟨"T", "C", "draft", [], [], none⟩],
       wpCfg0⟩ := rfl

/-- C4: an `editPost` request supplying `postId` and only `status`
among the updatable fields sends a payload that is exactly `{status}`
(the post id appears only in the request path, and title, content,
tags, categories are absent from the body); and an `editPost` request
supplying `postId` but none of the updatable fields is rejected with
the envelope `{error: "No fields provided for update."}` with no edit
request issued. -/
theorem C4_edit_partial_payload :
    (∀ (cfg : WPConfig) (args : WPArgs) (env : WPEnv) (d : WPData)
        (p : Int) (s : String) (rid : Int) (tok : String),
      wpValidate args = .ok d → d.action = "editPost" →
      d.postId = some p → p ≠ 0 →
      d.title = none → d.content = none → d.status = some s →
      d.tags = none → d.categories = none →
      env.authResp = .ok tok → env.editResp = .ok rid →
      wpCall cfg args env =
        ⟨"\x7b\"message\":" ++ jsonStr "Post updated successfully" ++
           ",\"id\":" ++ toString rid ++ ",\"updatedFields\":" ++
           renderEditBody ⟨none, none, some s, none, none⟩ ++ "\x7d",
         [.auth cfg.username cfg.password,
          .editPost p ⟨none, none, some s, none, none⟩], cfg⟩) ∧
    (∀ (cfg : WPConfig) (args : WPArgs) (env : WPEnv) (d : WPData)
        (p : Int) (tok : String),
      wpValidate args = .ok d → d.action = "editPost" →
      d.postId = some p → p ≠ 0 →
      d.title = none → d.content = none → d.status = none →
      d.tags = none → d.categories = none →
      env.authResp = .ok tok →
      wpCall cfg args env =
        ⟨renderErrEnv "No fields provided for update.",
         [.auth cfg.username cfg.password], cfg⟩) := by
  constructor
  · intro cfg args env d p s rid tok hv ha hp hpnz ht hc hs htg hcat henv hedit
    have hne : s ≠ "" := by
      rcases wpValidate_ok_status args d s hv hs with h | h | h <;> simp [h]
    simp [wpCall, wpRun, hv, henv, wpDispatch, ha, hp, ht, hc, hs, htg, hcat,
      intTruthy, hpnz, EditBody.isEmpty, hedit, strTruthy, hne]
  · intro cfg args env d p tok hv ha hp hpnz ht hc hs htg hcat henv
    simp [wpCall, wpRun, hv, henv, wpDispatch, ha, hp, ht, hc, hs, htg, hcat,
      intTruthy, hpnz, EditBody.isEmpty, strTruthy]

/-- Witness for C4: `{action: "editPost", postId: 5, status: "publish"}`
sends only `{status}`; `{action: "editPost", postId: 5}` is rejected. -/
theorem C4_edit_partial_payload_witness :
    wpCall wpCfg0
      { action := some "editPost", postId := some 5, status := some "publish" }
      { editResp := .ok 5 } =
      ⟨"\x7b\"message\":" ++ jsonStr "Post updated successfully" ++
         ",\"id\":" ++ toString (5 : Int) ++ ",\"updatedFields\":" ++
         renderEditBody ⟨none, none, some "publish", none, none⟩ ++ "\x7d",
       [.auth "u" "p", .editPost 5 ⟨none, none, some "publish", none, none⟩],
       wpCfg0⟩ ∧
    wpCall wpCfg0 { action := some "editPost", postId := some 5 } wpEnv0 =
      ⟨renderErrEnv "No fields provided for update.", [.auth "u" "p"], wpCfg0⟩ := by
  constructor
  · exact C4_edit_partial_payload.1 wpCfg0
      { action := some "editPost", postId := some 5, status := some "publish" }
      { editResp := .ok 5 }
      ⟨"editPost", some 5, none, none, some "publish", none, none, none, none,
       none, none, none, none, none, none, none, none, 1, 20⟩
      5 "publish" 5 "token" rfl rfl rfl (by decide) rfl rfl rfl rfl rfl rfl rfl
  · exact C4_edit_partial_payload.2 wpCfg0
      { action := some "editPost", postId := some 5 } wpEnv0
      ⟨"editPost", some 5, none, none, none, none, none, none, none,
       none, none, none, none, none, none, none, none, 1, 20⟩
      5 "token" rfl rfl rfl (by decide) rfl rfl rfl rfl rfl rfl

/-- C5: every lookup-by-name in `searchPosts` queries the taxonomy
search endpoint and uses the first match's id in the downstream post
query; when the search returns no match, the invocation fails with the
error `No tag found with name "..."` (respectively
`No category found with name "..."`), and no post query carrying a null
id is ever issued (the error propagates to the `_call` boundary catch,
which returns it as an error envelope). -/
theorem C5_lookup_by_name_first_match_or_error
    (env : WPEnv) (st sv : Option String) (ty nm : String) (hnm : nm ≠ "") :
    (env.tagSearchResp = .ok [] →
      searchPostsM env st sv none (some nm) none none ty =
        (.error ("No tag found with name \"" ++ nm ++ "\"."), [.tagSearch nm])) ∧
    (∀ (i : Int) (rest : List Int) (posts : List (Int × String)),
      env.tagSearchResp = .ok (i :: rest) → i ≠ 0 → env.queryResp = .ok posts →
      searchPostsM env st sv none (some nm) none none ty =
        (.ok posts,
         [.tagSearch nm,
          .postQuery ty (searchParams0 st sv ++
            [("status", "any"), ("tags", toString i)])])) ∧
    (env.catSearchResp = .ok [] →
      searchPostsM env st sv none none none (some nm) ty =
        (.error ("No category found with name \"" ++ nm ++ "\"."),
         [.categorySearch nm])) ∧
    (∀ (i : Int) (rest : List Int) (posts : List (Int × String)),
      env.catSearchResp = .ok (i :: rest) → i ≠ 0 → env.queryResp = .ok posts →
      searchPostsM env st sv none none none (some nm) ty =
        (.ok posts,
         [.categorySearch nm,
          .postQuery ty (searchParams0 st sv ++
            [("status", "any"), ("categories", toString i)])])) := by
  refine ⟨?_, ?_, ?_, ?_⟩
  · intro h
    simp [searchPostsM, strTruthy, hnm, h, intTruthy]
  · intro i rest posts h hi hq
    simp [searchPostsM, strTruthy, hnm, h, intTruthy, hi, hq]
  · intro h
    simp [searchPostsM, strTruthy, hnm, h, intTruthy]
  · intro i rest posts h hi hq
    simp [searchPostsM, strTruthy, hnm, h, intTruthy, hi, hq]

/-- Witness for C5: the tag name "news" with an empty search result
fails, and with the search answering `[7]` the first id `7` is used in
the post query. -/
theorem C5_lookup_by_name_first_match_or_error_witness :
    searchPostsM { tagSearchResp := .ok [] } none none none (some "news")
        none none "post" =
      (.error ("No tag found with name \"news\"."), [.tagSearch "news"]) ∧
    searchPostsM { tagSearchResp := .ok [7], queryResp := .ok [(1, "A")] }
        none none none (some "news") none none "post" =
      (.ok [(1, "A")],
       [.tagSearch "news",
        .postQuery "post" (searchParams0 none none ++
          [("status", "any"), ("tags", toString (7 : Int))])]) := by
  constructor
  · exact (C5_lookup_by_name_first_match_or_error { tagSearchResp := .ok [] }
      none none "post" "news" (by decide)).1 rfl
  · exact (C5_lookup_by_name_first_match_or_error
      { tagSearchResp := .ok [7], queryResp := .ok [(1, "A")] }
      none none "post" "news" (by decide)).2.1 7 [] [(1, "A")] rfl (by decide) rfl

/-- Unfolding a successful Portdox `schema.parse`. -/
theorem pValidate_ok_shape (args : PArgs) (d : PData)
    (h : pValidate args = .ok d) :
    args.action = some d.action ∧
    d = ⟨d.action, args.page, args.per_page, args.ref_number,
      args.container_number, args.container_type, args.seal_no_1,
      args.seal_no_2, args.empty_pickup_date, args.full_return_date,
      args.booking_id, args.container_status, args.load_id⟩ := by
  cases ha : args.action with
  | none => simp [pValidate, ha] at h
  | some a =>
    simp only [pValidate, ha] at h
    split at h
    · cases h; exact ⟨rfl, rfl⟩
    · simp at h

/-- C6 counterexample: the Portdox `list_load_requests` action with
`page`/`per_page` omitted asks the remote API for page 1 with **5**
items per page, not 20: the claim's fixed default of 20 per page does
not hold for every pagination action of every tool. -/
theorem C6_counterexample_portdox_default_five :
    (portdoxCall pCfg0 { action := some "list_load_requests" } pEnv0).trace =
      [.loadList pCfg0.laravelAuthToken 1 5 none] ∧
    [PReq.loadList pCfg0.laravelAuthToken 1 5 none] ≠
      [PReq.loadList pCfg0.laravelAuthToken 1 20 none] := by
  exact ⟨rfl, by decide⟩

/-- C6 (amended): the three WordPress pagination actions default to
page 1 with 20 items per page (zod defaults) and pass supplied values
through verbatim; the Portdox listing action defaults to page 1 with
**5** items per page (destructuring defaults) and passes supplied
values through verbatim. -/
theorem C6_pagination_defaults :
    (∀ (cfg : WPConfig) (args : WPArgs) (env : WPEnv) (d : WPData) (tok : String),
      wpValidate args = .ok d → env.authResp = .ok tok →
      (d.action = "listPaginatedPosts" →
        (wpCall cfg args env).trace =
          [.auth cfg.username cfg.password,
           .paginatedPosts (args.page.getD 1) (args.perPage.getD 20)]) ∧
      (d.action = "listPaginatedCategories" →
        (wpCall cfg args env).trace =
          [.auth cfg.username cfg.password,
           .paginatedCategories (args.page.getD 1) (args.perPage.getD 20)]) ∧
      (d.action = "listPaginatedTags" →
        (wpCall cfg args env).trace =
          [.auth cfg.username cfg.password,
           .paginatedTags (args.page.getD 1) (args.perPage.getD 20)])) ∧
    (∀ (cfg : PConfig) (args : PArgs) (env : PEnv) (d : PData),
      pValidate args = .ok d → d.action = "list_load_requests" →
      (portdoxCall cfg args env).trace =
        [.loadList cfg.laravelAuthToken (args.page.getD 1) (args.per_page.getD 5)
          (if strTruthy args.ref_number then args.ref_number else none)]) := by
  constructor
  · intro cfg args env d tok hv henv
    obtain ⟨-, hd⟩ := (wpValidate_ok_shape args d hv).2.imp id id
    have hpage : d.page = args.page.getD 1 := by rw [hd]
    have hper : d.perPage = args.perPage.getD 20 := by rw [hd]
    refine ⟨?_, ?_, ?_⟩ <;> intro ha
    · rcases hr : env.paginatedPostsResp with m | posts <;>
        simp [wpCall, wpRun, hv, henv, wpDispatch, ha, hr, hpage, hper]
    · rcases hr : env.paginatedCatsResp with m | s <;>
        simp [wpCall, wpRun, hv, henv, wpDispatch, ha, hr, hpage, hper]
    · rcases hr : env.paginatedTagsResp with m | s <;>
        simp [wpCall, wpRun, hv, henv, wpDispatch, ha, hr, hpage, hper]
  · intro cfg args env d hv ha
    obtain ⟨-, hd⟩ := pValidate_ok_shape args d hv
    have hpage : d.page = args.page := by rw [hd]
    have hper : d.per_page = args.per_page := by rw [hd]
    have href : d.ref_number = args.ref_number := by rw [hd]
    rcases hl : env.loadResp with m | r
    · simp [portdoxCall, portdoxRun, hv, ha, getLoadRequestsM, hl, hpage, hper, href]
    · by_cases hsu : r.success <;>
        simp [portdoxCall, portdoxRun, hv, ha, getLoadRequestsM, hl, hsu,
          hpage, hper, href]

/-- Witness for C6 (amended): WordPress paginated posts with defaults
and with explicit values, and the Portdox listing with defaults. -/
theorem C6_pagination_defaults_witness :
    (wpCall wpCfg0 { action := some "listPaginatedPosts" } wpEnv0).trace =
      [.auth "u" "p", .paginatedPosts 1 20] ∧
    (wpCall wpCfg0
      { action := some "listPaginatedPosts", page := some 3, perPage := some 50 }
      wpEnv0).trace =
      [.auth "u" "p", .paginatedPosts 3 50] ∧
    (portdoxCall pCfg0 { action := some "list_load_requests" } pEnv0).trace =
      [.loadList pCfg0.laravelAuthToken 1 5 none] := by
  refine ⟨?_, ?_, ?_⟩
  · exact ((C6_pagination_defaults.1 wpCfg0 { action := some "listPaginatedPosts" }
      wpEnv0
      ⟨"listPaginatedPosts", none, none, none, none, none, none, none, none,
       none, none, none, none, none, none, none, none, 1, 20⟩
      "token" rfl rfl).1 rfl)
  · exact ((C6_pagination_defaults.1 wpCfg0
      { action := some "listPaginatedPosts", page := some 3, perPage := some 50 }
      wpEnv0
      ⟨"listPaginatedPosts", none, none, none, none, none, none, none, none,
       none, none, none, none, none, none, none, none, 3, 50⟩
      "token" rfl rfl).1 rfl)
  · exact (C6_pagination_defaults.2 pCfg0 { action := some "list_load_requests" }
      pEnv0
      ⟨"list_load_requests", none, none, none, none, none, none, none, none,
       none, none, none, none⟩
      rfl rfl)

/-- C7 counterexample: `FluxAPI._call` on a request without a prompt
throws `Missing required field: prompt` — there is no `try/catch`
around that `throw`, so the exception propagates uncaught to the
invoking agent, contradicting the claim that every tool converts every
error into a returned envelope. -/
theorem C7_counterexample_flux_throws :
    fluxCall fluxCfg0 ⟨none⟩ {} fluxEnvOk 3 =
      ⟨.thrown "Missing required field: prompt", ⟨none⟩, []⟩ ∧
    FluxRet.thrown "Missing required field: prompt" ≠
      .returned (.strPair "Missing required field: prompt") := by
  exact ⟨rfl, by decide⟩

/-- C7 (amended): `WordPressTool._call` and `PortdoxTool._call` catch
every error of their bodies at the boundary and return it as an
error-envelope string; `FluxAPI._call` returns (or keeps polling) for
every truthy prompt — its submission, polling and save errors are
caught — but throws the uncaught `Missing required field: prompt`
exception whenever the prompt is absent or empty. -/
theorem C7_error_boundary :
    (∀ (cfg : WPConfig) (args : WPArgs) (env : WPEnv) (e : String) (t : List WPReq),
      wpRun cfg args env = (.error e, t) →
      wpCall cfg args env = ⟨renderErrEnv e, t, cfg⟩) ∧
    (∀ (cfg : PConfig) (args : PArgs) (env : PEnv) (e : String) (t : List PReq),
      portdoxRun cfg args env = (.error e, t) →
      portdoxCall cfg args env = ⟨"⚠️ Plugin Error: " ++ e, t, cfg⟩) ∧
    (∀ (cfg : FluxCfg) (st : FluxState) (args : FluxArgs) (env : FluxEnv)
        (fuel : Nat),
      strTruthy args.prompt = false →
      fluxCall cfg st args env fuel =
        ⟨.thrown "Missing required field: prompt", st, []⟩) ∧
    (∀ (cfg : FluxCfg) (st : FluxState) (args : FluxArgs) (env : FluxEnv)
        (fuel : Nat) (m : String),
      strTruthy args.prompt = true →
      (fluxCall cfg st args env fuel).ret ≠ .thrown m) := by
  refine ⟨?_, ?_, ?_, ?_⟩
  · intro cfg args env e t h
    simp [wpCall, h]
  · intro cfg args env e t h
    simp [portdoxCall, h]
  · intro cfg st args env fuel h
    simp [fluxCall, h]
  · intro cfg st args env fuel m h
    unfold fluxCall
    rw [if_pos h]
    rcases himg : imagesLoop env (args.endpoint.getD "/v1/flux-pro")
        (fluxPayloadOf args) fuel
        (min (max (args.number_of_images.getD 1) 1) 24).toNat 0 "" with ⟨o, t⟩
    cases o <;> simp [himg]

/-- Witness for C7 (amended): a failing authentication becomes a
WordPress error envelope; a Portdox validation failure becomes a
`⚠️ Plugin Error:` string; the Flux throw and no-throw cases at
concrete inputs. -/
theorem C7_error_boundary_witness :
    wpCall wpCfg0 { action := some "listTags" }
        { authResp := .error (some "bad credentials") } =
      ⟨renderErrEnv "Authentication failed: bad credentials",
       [.auth "u" "p"], wpCfg0⟩ ∧
    portdoxCall pCfg0 {} pEnv0 =
      ⟨"⚠️ Plugin Error: " ++ renderIssues [⟨["action"], "Required"⟩], [], pCfg0⟩ ∧
    fluxCall fluxCfg0 ⟨none⟩ { prompt := some "" } fluxEnvOk 2 =
      ⟨.thrown "Missing required field: prompt", ⟨none⟩, []⟩ ∧
    (fluxCall fluxCfg0 ⟨none⟩ { prompt := some "a cat" } fluxEnvOk 2).ret ≠
      .thrown "Missing required field: prompt" := by
  refine ⟨?_, ?_, ?_, ?_⟩
  · exact C7_error_boundary.1 wpCfg0 { action := some "listTags" }
      { authResp := .error (some "bad credentials") }
      "Authentication failed: bad credentials" [.auth "u" "p"] rfl
  · exact C7_error_boundary.2.1 pCfg0 {} pEnv0
      (renderIssues [⟨["action"], "Required"⟩]) [] rfl
  · exact C7_error_boundary.2.2.1 fluxCfg0 ⟨none⟩ { prompt := some "" }
      fluxEnvOk 2 rfl
  · exact C7_error_boundary.2.2.2 fluxCfg0 ⟨none⟩ { prompt := some "a cat" }
      fluxEnvOk 2 "Missing required field: prompt" rfl

/-- Aux: over a status stream that never reaches a terminal state, the
polling loop is still running after any number of polls, from any start
index. -/
theorem pollLoop_no_terminal (poll : Nat → Except String PollResp) (tid : Int)
    (h : ∀ i, ∃ r, poll i = .ok r ∧ (r.status == "Ready") = false ∧
      (r.status == "Error") = false) :
    ∀ fuel j, (pollLoop poll tid fuel j).1 = .fuelOut := by
  intro fuel
  induction fuel with
  | zero => intro j; simp [pollLoop]
  | succ n ih =>
    intro j
    obtain ⟨r, hr, h1, h2⟩ := h j
    have hrec := ih (j + 1)
    rcases hx : pollLoop poll tid n (j + 1) with ⟨o, t⟩
    rw [hx] at hrec
    simp only at hrec
    simp [pollLoop, hr, h1, h2, hx, hrec]

/-- Aux: when the status first becomes terminal at poll index `k`, the
loop exits after exactly `k + 1` polls, each preceded by the fixed
2000 ms wait, with the outcome matching the terminal status. -/
theorem pollLoop_first_terminal (poll : Nat → Except String PollResp) (tid : Int) :
    ∀ (k start fuel : Nat),
      (∀ j, j < k → ∃ r, poll (start + j) = .ok r ∧
        (r.status == "Ready") = false ∧ (r.status == "Error") = false) →
      ∀ rk, poll (start + k) = .ok rk →
      ((rk.status == "Ready") || (rk.status == "Error")) = true →
      k < fuel →
      (pollLoop poll tid fuel start).2.length = k + 1 ∧
      (pollLoop poll tid fuel start).1 =
        (if rk.status == "Ready" then PollOut.ready rk.result
         else PollOut.errStatus) ∧
      ∀ e ∈ (pollLoop poll tid fuel start).2, e = FluxReq.poll tid 2000 := by
  intro k
  induction k with
  | zero =>
    intro start fuel h rk hk hterm hf
    obtain ⟨m, rfl⟩ : ∃ m, fuel = m + 1 := ⟨fuel - 1, by omega⟩
    rw [Nat.add_zero] at hk
    by_cases hready : (rk.status == "Ready") = true
    · simp [pollLoop, hk, hready]
    · have hready' : (rk.status == "Ready") = false := by simpa using hready
      simp only [hready', Bool.false_or] at hterm
      simp [pollLoop, hk, hready', hterm]
  | succ n ih =>
    intro start fuel h rk hk hterm hf
    obtain ⟨m, rfl⟩ : ∃ m, fuel = m + 1 := ⟨fuel - 1, by omega⟩
    obtain ⟨r0, hr0, h1, h2⟩ := h 0 (by omega)
    rw [Nat.add_zero] at hr0
    have hk2 : poll (start + 1 + n) = .ok rk := by
      rw [show start + 1 + n = start + (n + 1) by omega]; exact hk
    have h' : ∀ j, j < n → ∃ r, poll (start + 1 + j) = .ok r ∧
        (r.status == "Ready") = false ∧ (r.status == "Error") = false := by
      intro j hj
      rw [show start + 1 + j = start + (j + 1) by omega]
      exact h (j + 1) (by omega)
    have hrec := ih (start + 1) m h' rk hk2 hterm (by omega)
    rcases hx : pollLoop poll tid m (start + 1) with ⟨o, t⟩
    rw [hx] at hrec
    simp only at hrec
    obtain ⟨hlen, hout, hmem⟩ := hrec
    refine ⟨?_, ?_, ?_⟩
    · simp [pollLoop, hr0, h1, h2, hx, hlen]
    · simp [pollLoop, hr0, h1, h2, hx, hout]
    · intro e he
      simp only [pollLoop, hr0, h1, h2, hx] at he
      simp only [Bool.false_eq_true, if_false, List.mem_cons] at he
      rcases he with he | he
      · exact he
      · exact hmem e he

/-- C8: after submitting a job, the adapter polls the result endpoint —
each poll preceded by the fixed 2000 ms wait — and exits the loop
exactly at the first poll whose status is terminal (`'Ready'` or
`'Error'`), with the matching outcome; and over any status stream that
never reaches a terminal state, the loop is still polling after every
fuel bound, i.e. it does not terminate. -/
theorem C8_polling_until_terminal :
    (∀ (poll : Nat → Except String PollResp) (tid : Int) (k fuel : Nat)
        (rk : PollResp),
      (∀ j, j < k → ∃ r, poll j = .ok r ∧ (r.status == "Ready") = false ∧
        (r.status == "Error") = false) →
      poll k = .ok rk →
      ((rk.status == "Ready") || (rk.status == "Error")) = true →
      k < fuel →
      (pollLoop poll tid fuel 0).2.length = k + 1 ∧
      (pollLoop poll tid fuel 0).1 =
        (if rk.status == "Ready" then PollOut.ready rk.result
         else PollOut.errStatus) ∧
      ∀ e ∈ (pollLoop poll tid fuel 0).2, e = FluxReq.poll tid 2000) ∧
    (∀ (poll : Nat → Except String PollResp) (tid : Int),
      (∀ i, ∃ r, poll i = .ok r ∧ (r.status == "Ready") = false ∧
        (r.status == "Error") = false) →
      ∀ fuel, (pollLoop poll tid fuel 0).1 = .fuelOut) := by
  constructor
  · intro poll tid k fuel rk h hk hterm hf
    exact pollLoop_first_terminal poll tid k 0 fuel
      (by simpa using h) rk (by simpa using hk) hterm hf
  · intro poll tid h fuel
    exact pollLoop_no_terminal poll tid h fuel 0

/-- Witness for C8: a stream that is `Pending` twice and then `Ready`
exits after exactly 3 polls; the constant `Pending` stream is still
polling at fuel 3. -/
theorem C8_polling_until_terminal_witness :
    ((pollLoop (fun i => if i < 2 then .ok ⟨"Pending", none⟩
        else .ok ⟨"Ready", some ⟨some "u"⟩⟩) 1 5 0).2.length = 3 ∧
      (pollLoop (fun i => if i < 2 then .ok ⟨"Pending", none⟩
        else .ok ⟨"Ready", some ⟨some "u"⟩⟩) 1 5 0).1 =
        PollOut.ready (some ⟨some "u"⟩)) ∧
    (pollLoop (fun _ => .ok ⟨"Pending", none⟩) 1 3 0).1 = .fuelOut := by
  constructor
  · have h := C8_polling_until_terminal.1
      (fun i => if i < 2 then .ok ⟨"Pending", none⟩
        else .ok ⟨"Ready", some ⟨some "u"⟩⟩) 1 2 5 ⟨"Ready", some ⟨some "u"⟩⟩
      (by
        intro j hj
        match j, hj with
        | 0, _ => exact ⟨⟨"Pending", none⟩, rfl, rfl, rfl⟩
        | 1, _ => exact ⟨⟨"Pending", none⟩, rfl, rfl, rfl⟩)
      rfl rfl (by omega)
    exact ⟨h.1, by simpa using h.2.1⟩
  · exact C8_polling_until_terminal.2 (fun _ => .ok ⟨"Pending", none⟩) 1
      (fun i => ⟨⟨"Pending", none⟩, rfl, rfl, rfl⟩) 3

/-- C9 counterexample: a fully successful one-image FluxAPI invocation
changes the instance state: `_call` assigns the markdown embed list to
`this.result`, so the tool is not stateless between calls. -/
theorem C9_counterexample_flux_result_assigned :
    (fluxCall fluxCfg0 ⟨none⟩ { prompt := some "a cat" } fluxEnvOk 2).finalState =
      ⟨some ["![generated image](images/img-0.png)"]⟩ ∧
    (fluxCall fluxCfg0 ⟨none⟩ { prompt := some "a cat" } fluxEnvOk 2).finalState ≠
      ⟨none⟩ := by
  refine ⟨rfl, ?_⟩
  rw [show (fluxCall fluxCfg0 ⟨none⟩ { prompt := some "a cat" } fluxEnvOk 2).finalState =
    ⟨some ["![generated image](images/img-0.png)"]⟩ from rfl]
  simp

/-- C9 (amended): `WordPressTool._call` and `PortdoxTool._call` leave
the instance state unchanged on every input, but `FluxAPI._call` is not
stateless: on its fully successful path it overwrites the mutable
instance field `this.result` with the markdown embed list (on every
other path it leaves the state unchanged). -/
theorem C9_stateless_except_flux :
    (∀ (cfg : WPConfig) (args : WPArgs) (env : WPEnv),
      (wpCall cfg args env).finalState = cfg) ∧
    (∀ (cfg : PConfig) (args : PArgs) (env : PEnv),
      (portdoxCall cfg args env).finalState = cfg) ∧
    (∀ (cfg : FluxCfg) (st : FluxState) (args : FluxArgs) (env : FluxEnv)
        (fuel : Nat),
      (fluxCall cfg st args env fuel).finalState = st ∨
      ∃ embeds, (fluxCall cfg st args env fuel).finalState = ⟨some embeds⟩ ∧
        (fluxCall cfg st args env fuel).ret =
          .returned (returnValue cfg (.vobj embeds))) := by
  refine ⟨?_, ?_, ?_⟩
  · intro cfg args env
    rcases h : wpRun cfg args env with ⟨r, t⟩
    cases r <;> simp [wpCall, h]
  · intro cfg args env
    rcases h : portdoxRun cfg args env with ⟨r, t⟩
    cases r <;> simp [portdoxCall, h]
  · intro cfg st args env fuel
    by_cases hp : strTruthy args.prompt = true
    · unfold fluxCall
      rw [if_pos hp]
      rcases himg : imagesLoop env (args.endpoint.getD "/v1/flux-pro")
          (fluxPayloadOf args) fuel
          (min (max (args.number_of_images.getD 1) 1) 24).toNat 0 "" with ⟨o, t⟩
      cases o with
      | completed md =>
        right
        exact ⟨jsSplitNl (jsTrim md), by simp [himg], by simp [himg]⟩
      | early v => left; simp [himg]
      | fuelOut => left; simp [himg]
    · have hp' : strTruthy args.prompt = false := by simpa using hp
      left
      simp [fluxCall, hp']

/-- Witness for C9 (amended) at concrete inputs. -/
theorem C9_stateless_except_flux_witness :
    (wpCall wpCfg0 { action := some "listTags" } wpEnv0).finalState = wpCfg0 ∧
    (portdoxCall pCfg0 { action := some "list_load_requests" } pEnv0).finalState =
      pCfg0 ∧
    ((fluxCall fluxCfg0 ⟨none⟩ { prompt := some "a cat" } fluxEnvOk 2).finalState =
        ⟨none⟩ ∨
      ∃ embeds,
        (fluxCall fluxCfg0 ⟨none⟩ { prompt := some "a cat" } fluxEnvOk 2).finalState =
          ⟨some embeds⟩ ∧
        (fluxCall fluxCfg0 ⟨none⟩ { prompt := some "a cat" } fluxEnvOk 2).ret =
          .returned (returnValue fluxCfg0 (.vobj embeds))) :=
  ⟨C9_stateless_except_flux.1 wpCfg0 { action := some "listTags" } wpEnv0,
   C9_stateless_except_flux.2.1 pCfg0 { action := some "list_load_requests" } pEnv0,
   C9_stateless_except_flux.2.2 fluxCfg0 ⟨none⟩ { prompt := some "a cat" }
     fluxEnvOk 2⟩

/-- Counting rule: the empty trace. -/
theorem countSubmits_nil : countSubmits [] = 0 := rfl

/-- Counting rule: a submission at the head. -/
theorem countSubmits_cons_submit (e : String) (p : FluxPayload) (t : List FluxReq) :
    countSubmits (.submit e p :: t) = countSubmits t + 1 := by
  simp [countSubmits, List.countP_cons]

/-- Counting rule: a poll at the head. -/
theorem countSubmits_cons_poll (tid : Int) (w : Nat) (t : List FluxReq) :
    countSubmits (.poll tid w :: t) = countSubmits t := by
  simp [countSubmits, List.countP_cons]

/-- Counting rule: a save at the head. -/
theorem countSubmits_cons_save (u : String) (t : List FluxReq) :
    countSubmits (.saveFile u :: t) = countSubmits t := by
  simp [countSubmits, List.countP_cons]

/-- Counting rule: append. -/
theorem countSubmits_append (t1 t2 : List FluxReq) :
    countSubmits (t1 ++ t2) = countSubmits t1 + countSubmits t2 := by
  simp [countSubmits, List.countP_append]

/-- The polling loop submits no jobs. -/
theorem pollLoop_no_submits (poll : Nat → Except String PollResp) (tid : Int) :
    ∀ fuel j, countSubmits (pollLoop poll tid fuel j).2 = 0 := by
  intro fuel
  induction fuel with
  | zero => intro j; simp [pollLoop, countSubmits]
  | succ n ih =>
    intro j
    rcases hp : poll j with d | r
    · simp [pollLoop, hp, countSubmits]
    · by_cases h1 : (r.status == "Ready") = true
      · simp [pollLoop, hp, h1, countSubmits]
      · have h1' : (r.status == "Ready") = false := by simpa using h1
        by_cases h2 : (r.status == "Error") = true
        · simp [pollLoop, hp, h1', h2, countSubmits]
        · have h2' : (r.status == "Error") = false := by simpa using h2
          rcases hx : pollLoop poll tid n (j + 1) with ⟨o, t⟩
          have hz := ih (j + 1)
          rw [hx] at hz
          simp only at hz
          simp [pollLoop, hp, h1', h2', hx, countSubmits_cons_poll, hz]

/-- Each started image iteration begins with exactly one submission, so
the whole loop submits at most one job per planned image. -/
theorem imagesLoop_submits_le (env : FluxEnv) (e : String) (p : FluxPayload)
    (fuel : Nat) : ∀ k i acc,
    countSubmits (imagesLoop env e p fuel k i acc).2 ≤ k := by
  intro k
  induction k with
  | zero => intro i acc; simp [imagesLoop, countSubmits]
  | succ n ih =>
    intro i acc
    rcases hs : env.submitResp i with d | tid
    · simp only [imagesLoop, hs]
      rw [countSubmits_cons_submit, countSubmits_nil]
      omega
    · rcases hpl : pollLoop (env.pollResp i) tid fuel 0 with ⟨po, pt⟩
      have hpz := pollLoop_no_submits (env.pollResp i) tid fuel 0
      rw [hpl] at hpz
      simp only at hpz
      cases po with
      | fuelOut =>
        simp only [imagesLoop, hs, hpl]
        rw [countSubmits_cons_submit, hpz]
        omega
      | caught =>
        simp only [imagesLoop, hs, hpl]
        rw [countSubmits_cons_submit, hpz]
        omega
      | errStatus =>
        simp only [imagesLoop, hs, hpl]
        rw [countSubmits_cons_submit, hpz]
        omega
      | ready res =>
        cases res with
        | none =>
          simp only [imagesLoop, hs, hpl]
          rw [countSubmits_cons_submit, hpz]
          omega
        | some rd =>
          by_cases hsam : strTruthy rd.sample = true
          · rcases hf : env.saveResp i with d | fp
            · simp only [imagesLoop, hs, hpl, hsam, if_true, hf]
              rw [countSubmits_cons_submit, countSubmits_append, hpz,
                countSubmits_cons_save, countSubmits_nil]
              omega
            · rcases hrec : imagesLoop env e p fuel n (i + 1)
                  (acc ++ "![generated image](" ++ fp ++ ")\n") with ⟨o, t⟩
              have hle := ih (i + 1) (acc ++ "![generated image](" ++ fp ++ ")\n")
              rw [hrec] at hle
              simp only at hle
              simp only [imagesLoop, hs, hpl, hsam, if_true, hf, hrec]
              rw [countSubmits_cons_submit, countSubmits_append,
                countSubmits_append, hpz, countSubmits_cons_save,
                countSubmits_nil]
              omega
          · have hsam' : strTruthy rd.sample = false := by simpa using hsam
            simp only [imagesLoop, hs, hpl, hsam', Bool.false_eq_true, if_false]
            rw [countSubmits_cons_submit, hpz]
            omega

/-- Each non-empty loop starts with a submission request. -/
theorem imagesLoop_head_submit (env : FluxEnv) (e : String) (p : FluxPayload)
    (fuel n i : Nat) (acc : String) :
    ∃ rest, (imagesLoop env e p fuel (n + 1) i acc).2 = .submit e p :: rest := by
  rcases hs : env.submitResp i with d | tid
  · exact ⟨[], by simp [imagesLoop, hs]⟩
  · rcases hpl : pollLoop (env.pollResp i) tid fuel 0 with ⟨po, pt⟩
    cases po with
    | fuelOut => exact ⟨pt, by simp [imagesLoop, hs, hpl]⟩
    | caught => exact ⟨pt, by simp [imagesLoop, hs, hpl]⟩
    | errStatus => exact ⟨pt, by simp [imagesLoop, hs, hpl]⟩
    | ready res =>
      cases res with
      | none => exact ⟨pt, by simp [imagesLoop, hs, hpl]⟩
      | some rd =>
        by_cases hsam : strTruthy rd.sample = true
        · rcases hf : env.saveResp i with d | fp
          · exact ⟨pt ++ [.saveFile (rd.sample.getD "")],
              by simp [imagesLoop, hs, hpl, hsam, hf]⟩
          · rcases hrec : imagesLoop env e p fuel n (i + 1)
                (acc ++ "![generated image](" ++ fp ++ ")\n") with ⟨o, t⟩
            exact ⟨pt ++ [.saveFile (rd.sample.getD "")] ++ t,
              by simp [imagesLoop, hs, hpl, hsam, hf, hrec]⟩
        · have hsam' : strTruthy rd.sample = false := by simpa using hsam
          exact ⟨pt, by simp [imagesLoop, hs, hpl, hsam']⟩

/-- Under an environment in which every submission, first poll and save
succeed, the loop completes and submits exactly one job per planned
image. -/
theorem imagesLoop_success (env : FluxEnv) (e : String) (p : FluxPayload)
    (fuel : Nat)
    (hsub : ∀ i, ∃ tid, env.submitResp i = .ok tid)
    (hpoll : ∀ i, ∃ rd, env.pollResp i 0 = .ok ⟨"Ready", some rd⟩ ∧
      strTruthy rd.sample = true)
    (hsave : ∀ i, ∃ fp, env.saveResp i = .ok fp)
    (hfuel : 1 ≤ fuel) :
    ∀ k i acc, ∃ md t, imagesLoop env e p fuel k i acc = (.completed md, t) ∧
      countSubmits t = k := by
  intro k
  induction k with
  | zero => intro i acc; exact ⟨acc, [], rfl, rfl⟩
  | succ n ih =>
    intro i acc
    obtain ⟨tid, hs⟩ := hsub i
    obtain ⟨rd, hp0, hsam⟩ := hpoll i
    obtain ⟨fp, hf⟩ := hsave i
    obtain ⟨m, rfl⟩ : ∃ m, fuel = m + 1 := ⟨fuel - 1, by omega⟩
    have hpl : pollLoop (env.pollResp i) tid (m + 1) 0 =
        (.ready (some rd), [.poll tid 2000]) := by
      simp [pollLoop, hp0]
    obtain ⟨md, t', hrec, hcnt⟩ :=
      ih (i + 1) (acc ++ "![generated image](" ++ fp ++ ")\n")
    refine ⟨md,
      .submit e p :: ([.poll tid 2000] ++ [.saveFile (rd.sample.getD "")] ++ t'),
      ?_, ?_⟩
    · simp [imagesLoop, hs, hpl, hsam, hf, hrec]
    · rw [countSubmits_cons_submit, countSubmits_append, countSubmits_append,
        countSubmits_cons_poll, countSubmits_nil, countSubmits_cons_save,
        countSubmits_nil, hcnt]
      omega

/-- The trace of a FluxAPI call with a truthy prompt is the trace of
its image loop, in every environment and for every outcome. -/
theorem fluxCall_trace (cfg : FluxCfg) (st : FluxState) (args : FluxArgs)
    (env : FluxEnv) (fuel : Nat) (hp : strTruthy args.prompt = true) :
    (fluxCall cfg st args env fuel).trace =
      (imagesLoop env (args.endpoint.getD "/v1/flux-pro") (fluxPayloadOf args)
        fuel (min (max (args.number_of_images.getD 1) 1) 24).toNat 0 "").2 := by
  unfold fluxCall
  rw [if_pos hp]
  rcases himg : imagesLoop env (args.endpoint.getD "/v1/flux-pro")
      (fluxPayloadOf args) fuel
      (min (max (args.number_of_images.getD 1) 1) 24).toNat 0 "" with ⟨o, t⟩
  cases o <;> simp [himg]

/-- C10 counterexample: the submission count does not equal
`min(max(number_of_images, 1), 24)` for every input.  A request without
a prompt throws before any submission, so zero jobs are submitted where
the claim predicts `min(max(1, 1), 24) = 1`; and with
`number_of_images = 2` but the first poll rejecting (axios error), the
loop short-circuits after one submission where the claim predicts
`min(max(2, 1), 24) = 2`. -/
theorem C10_counterexample_fewer_submissions :
    countSubmits (fluxCall fluxCfg0 ⟨none⟩ {} fluxEnvOk 3).trace = 0 ∧
    countSubmits (fluxCall fluxCfg0 ⟨none⟩
        { prompt := some "x", number_of_images := some 2 }
        ⟨fun i => .ok (Int.ofNat i), fun _ _ => .error "network down",
         fun _ => .ok "images/img-0.png"⟩ 3).trace = 1 ∧
    (0 : Int) ≠ min (max ((1 : Int)) 1) 24 ∧
    (1 : Int) ≠ min (max ((2 : Int)) 1) 24 := by
  refine ⟨rfl, rfl, by norm_num, by norm_num⟩

/-- C10 (amended): for every input with a truthy prompt, FluxAPI
submits at least one and at most 24 generation jobs; and when every
submission, poll and save succeeds (with polling fuel available), the
number of submissions equals `min(max(number_of_images, 1), 24)` with
`number_of_images` defaulting to 1 when omitted.  A falsy prompt throws
before any submission (zero jobs), and a failing submission, poll or
save short-circuits the loop to fewer submissions. -/
theorem C10_submission_count_clamped
    (cfg : FluxCfg) (st : FluxState) (args : FluxArgs) (env : FluxEnv)
    (fuel : Nat) (hp : strTruthy args.prompt = true) :
    (1 ≤ countSubmits (fluxCall cfg st args env fuel).trace ∧
      countSubmits (fluxCall cfg st args env fuel).trace ≤ 24) ∧
    ((∀ i, ∃ tid, env.submitResp i = .ok tid) →
      (∀ i, ∃ rd, env.pollResp i 0 = .ok ⟨"Ready", some rd⟩ ∧
        strTruthy rd.sample = true) →
      (∀ i, ∃ fp, env.saveResp i = .ok fp) →
      1 ≤ fuel →
      (countSubmits (fluxCall cfg st args env fuel).trace : Int) =
        min (max (args.number_of_images.getD 1) 1) 24) := by
  have htr := fluxCall_trace cfg st args env fuel hp
  have hk1 : 1 ≤ (min (max (args.number_of_images.getD 1) 1) 24).toNat := by
    omega
  have hk24 : (min (max (args.number_of_images.getD 1) 1) 24).toNat ≤ 24 := by
    omega
  constructor
  · constructor
    · rw [htr]
      obtain ⟨m, hm⟩ : ∃ m,
          (min (max (args.number_of_images.getD 1) 1) 24).toNat = m + 1 :=
        ⟨(min (max (args.number_of_images.getD 1) 1) 24).toNat - 1, by omega⟩
      rw [hm]
      obtain ⟨rest, hrest⟩ := imagesLoop_head_submit env
        (args.endpoint.getD "/v1/flux-pro") (fluxPayloadOf args) fuel m 0 ""
      rw [hrest, countSubmits_cons_submit]
      omega
    · rw [htr]
      exact le_trans (imagesLoop_submits_le env (args.endpoint.getD "/v1/flux-pro")
        (fluxPayloadOf args) fuel _ 0 "") hk24
  · intro hsub hpoll hsave hfuel
    obtain ⟨md, t, hloop, hcnt⟩ := imagesLoop_success env
      (args.endpoint.getD "/v1/flux-pro") (fluxPayloadOf args) fuel
      hsub hpoll hsave hfuel
      (min (max (args.number_of_images.getD 1) 1) 24).toNat 0 ""
    rw [htr, hloop]
    simp only [hcnt]
    omega

/-- Witness for C10: three images requested against the all-success
environment give exactly three submissions. -/
theorem C10_submission_count_clamped_witness :
    (1 ≤ countSubmits (fluxCall fluxCfg0 ⟨none⟩
        { prompt := some "x", number_of_images := some 3 } fluxEnvOk 1).trace ∧
      countSubmits (fluxCall fluxCfg0 ⟨none⟩
        { prompt := some "x", number_of_images := some 3 } fluxEnvOk 1).trace ≤ 24) ∧
    (countSubmits (fluxCall fluxCfg0 ⟨none⟩
        { prompt := some "x", number_of_images := some 3 } fluxEnvOk 1).trace : Int) =
      3 := by
  have h := C10_submission_count_clamped fluxCfg0 ⟨none⟩
    { prompt := some "x", number_of_images := some 3 } fluxEnvOk 1 rfl
  refine ⟨h.1, ?_⟩
  have he := h.2 (fun i => ⟨Int.ofNat i, rfl⟩)
    (fun i => ⟨⟨some "http://img.example/s.png"⟩, rfl, rfl⟩)
    (fun i => ⟨"images/img-0.png", rfl⟩) (by omega)
  have h3 : (min (max ((3 : Int)) 1) 24) = 3 := by norm_num
  rw [he]
  exact h3

end LibreChatTools
